import Mathlib

/-
  Verification of the content-moderation decision engine.

  Shallow embedding of the repository's core logic:
    - src/ml_classifier.py : ContentClassifier._determine_classification,
      _detect_spam, _classify_sync, update_thresholds, thresholds dict
    - src/main.py : apply_business_logic, calculate_priority, submit_content

  Floating-point scores are modelled as rationals (all constants in the code
  are short decimals, and the properties at stake are order/arithmetic facts
  that hold identically over ℚ).
-/

namespace ContentModeration

/-- The four final classifications produced by the engine
(src/ml_classifier.py docstring: acceptable, needs_review, toxic, spam). -/
inductive Classification where
  | acceptable
  | needs_review
  | toxic
  | spam
  deriving DecidableEq, BEq, Repr

/-- The string the code uses for each classification (Python uses plain
strings; the enum above is their exhaustive range). -/
def Classification.toString : Classification → String
  | .acceptable => "acceptable"
  | .needs_review => "needs_review"
  | .toxic => "toxic"
  | .spam => "spam"

/-- Output of `_analyze_sentiment`: a label and a score. -/
structure SentimentResult where
  label : String
  score : ℚ
  deriving DecidableEq, Repr

/-- Output of `_detect_toxicity`: a label and a clamped score. -/
structure ToxicityResult where
  label : String
  score : ℚ
  deriving DecidableEq, Repr

/-- The `self.thresholds` Python dict, as an association list; lookup takes
the first (most recently written) binding for a key. -/
abbrev TMap := List (String × ℚ)

/-- The threshold configuration built in `ContentClassifier.__init__`
(src/ml_classifier.py lines 75-80).  Note: there is no "spam_medium" key. -/
def defaultThresholds : TMap :=
  [("toxicity_high", 8/10),
   ("toxicity_medium", 6/10),
   ("spam_high", 7/10),
   ("confidence_low", 6/10)]

/-- Dict lookup returning the first binding of a key, if any. -/
def tfind? (m : TMap) (k : String) : Option ℚ :=
  match m with
  | [] => none
  | (k', v) :: rest => if k' = k then some v else tfind? rest k

/-- Python `m.get(k, d)`. -/
def tget (m : TMap) (k : String) (d : ℚ) : ℚ := (tfind? m k).getD d

/-- Python `m[k]`; every use in the code occurs with the key present, so the
missing-key (KeyError) case is given the junk value 0. -/
def titem (m : TMap) (k : String) : ℚ := tget m k 0

/-- `ContentClassifier.update_thresholds` (src/ml_classifier.py lines 266-269):
`dict.update` writes each key of `new` in order, later writes winning; with
first-binding lookup that is prepending the reversed update list. -/
def update_thresholds (m new : TMap) : TMap := new.reverse ++ m

/-- `ContentClassifier._determine_classification`
(src/ml_classifier.py lines 221-264), a faithful port: the confidence formula
and the five ordered rules.  `sentiment_result` is a parameter of the Python
function but is never read by its body. -/
def determine_classification (th : TMap) (toxicity_score spam_score : ℚ)
    (sentiment_result : SentimentResult) : Classification × ℚ :=
  let confidence : ℚ := 1 -
    max (if toxicity_score < 6/10 then |toxicity_score - 1/2| else 0)
        (if spam_score < 6/10 then |spam_score - 1/2| else 0)
  if titem th "toxicity_high" ≤ toxicity_score then
    (.toxic, toxicity_score)
  else if titem th "spam_high" ≤ spam_score then
    (.spam, spam_score)
  else if titem th "toxicity_medium" ≤ toxicity_score then
    (.needs_review, max toxicity_score (6/10))
  else if (1/2 : ℚ) ≤ spam_score then
    (.needs_review, max spam_score (6/10))
  else if confidence < titem th "confidence_low" then
    (.needs_review, confidence)
  else
    (.acceptable, confidence)

/-- The pattern-match contribution of `_detect_spam`
(src/ml_classifier.py lines 180-187): each regex match adds 0.15, capped at
0.5, and zero matches contribute nothing.  `pattern_matches` is the number of
patterns from `self.spam_patterns` that `re.search` finds in the content;
the regex engine itself is external, so the count is taken as an input. -/
def pattern_score (pattern_matches : Nat) : ℚ :=
  if 0 < pattern_matches then min ((pattern_matches : ℚ) * (15/100)) (1/2) else 0

/-- Python `content.split()`: split on whitespace runs, dropping empties. -/
def pysplit (content : String) : List String :=
  (content.split Char.isWhitespace).filter (fun w => w ≠ "")

/-- `ContentClassifier._detect_spam` (src/ml_classifier.py lines 170-207):
additive heuristics — pattern matches, excessive capitalisation, excessive
punctuation, lexical repetition — with the total clamped to 1.0.  The regex
pattern count is abstracted as the `pattern_matches` input (see
`pattern_score`); the remaining three signals are computed from the text. -/
def detect_spam (pattern_matches : Nat) (content : String) : ℚ :=
  let score : ℚ := 0
  let score := score + pattern_score pattern_matches
  let score :=
    if 10 < content.length then
      let capsFrac : ℚ :=
        ((content.toList.filter Char.isUpper).length : ℚ) / (content.length : ℚ)
      if 1/2 < capsFrac then score + 2/10 else score
    else score
  let punct_count := (content.toList.filter (fun c => c = '!' ∨ c = '?' ∨ c = '.')).length
  let score := if 5 < punct_count then score + 15/100 else score
  let words := pysplit content
  let score :=
    if 3 < words.length then
      let uniqueFrac : ℚ := ((words.dedup).length : ℚ) / (words.length : ℚ)
      if uniqueFrac < 3/10 then score + 2/10 else score
    else score
  min score 1

/-- The result dict built by `ContentClassifier._classify_sync`
(src/ml_classifier.py lines 119-148).  `content_length`/`word_count` are
absent from the error-path dict, hence `Option`; `error` is present only on
the error path. -/
structure ClassifyResult where
  classification : Classification
  confidence : ℚ
  toxicity_score : ℚ
  spam_score : ℚ
  sentiment : String
  sentiment_score : ℚ
  threshold : ℚ
  model_version : String
  content_length : Option Nat
  word_count : Option Nat
  error : Option String
  deriving DecidableEq, Repr

/-- `ContentClassifier._classify_sync` (src/ml_classifier.py lines 99-148).
The two transformer-model calls (toxicity pipeline, sentiment pipeline) are
external and fallible; their joint outcome is the `model_output` input.  On a
raised error the surrounding try/except returns the fixed safe-default dict
(lines 135-148); otherwise the verdict engine combines the scores and the
result dict is assembled, with `threshold` looked up via
`self.thresholds.get(f-string classification + "_high", 0.5)` (line 126). -/
def classify_sync (th : TMap) (model_version : String) (content : String)
    (pattern_matches : Nat)
    (model_output : Except String (ToxicityResult × SentimentResult)) :
    ClassifyResult :=
  match model_output with
  | .ok (toxicity_result, sentiment_result) =>
    let toxicity_score := toxicity_result.score
    let spam_score := detect_spam pattern_matches content
    let cc := determine_classification th toxicity_score spam_score sentiment_result
    { classification := cc.1
      confidence := cc.2
      toxicity_score := toxicity_score
      spam_score := spam_score
      sentiment := sentiment_result.label
      sentiment_score := sentiment_result.score
      threshold := tget th (cc.1.toString ++ "_high") (1/2)
      model_version := model_version
      content_length := some content.length
      word_count := some (pysplit content).length
      error := none }
  | .error e =>
    { classification := .needs_review
      confidence := 0
      toxicity_score := 0
      spam_score := 0
      sentiment := "neutral"
      sentiment_score := 1/2
      threshold := 0
      model_version := model_version
      content_length := none
      word_count := none
      error := some e }

/-- The collaborator side effects awaited by `apply_business_logic` and
`add_to_moderation_queue` (src/main.py lines 266-319, 363-380). -/
inductive Effect where
  | add_to_moderation_queue (content_id author_id reason : String) (priority : Int)
  | notify_user (author_id reason message : String)
  | increment_violation_counter (author_id violation_type : String)
  deriving DecidableEq, Repr

/-- The `result` dict built by `apply_business_logic`: an action string plus
the notification flag (read in src/main.py line 246 with default `False`). -/
structure ActionResult where
  action : String
  notification_sent : Bool
  deriving DecidableEq, Repr

/-- `calculate_priority` (src/main.py lines 383-395): first-match priority
for the moderation queue, from toxicity score and confidence. -/
def calculate_priority (toxicity confidence : ℚ) : Int :=
  if toxicity > 7/10 ∨ confidence < 6/10 then 5
  else if toxicity > 1/2 ∨ confidence < 7/10 then 4
  else if toxicity > 3/10 then 3
  else 2

/-- `apply_business_logic` (src/main.py lines 266-319): the if/elif dispatch
over the four classifications, returning the action result together with the
list of collaborator calls it awaits, in program order.  The moderation-queue
entry carries reason "needs_human_review" and the calculated priority
(src/main.py lines 370-380). -/
def apply_business_logic (content_id author_id : String)
    (classification : Classification) (toxicity_score confidence : ℚ) :
    ActionResult × List Effect :=
  match classification with
  | .acceptable =>
    ({ action := "approved_and_stored", notification_sent := false }, [])
  | .needs_review =>
    ({ action := "queued_for_review", notification_sent := false },
     [.add_to_moderation_queue content_id author_id "needs_human_review"
        (calculate_priority toxicity_score confidence)])
  | .toxic =>
    ({ action := "rejected_toxic", notification_sent := true },
     [.notify_user author_id "toxic"
        "Your content was flagged as toxic and has been rejected.",
      .increment_violation_counter author_id "toxic"])
  | .spam =>
    ({ action := "rejected_spam", notification_sent := true },
     [.notify_user author_id "spam"
        "Your content was identified as spam and has been rejected.",
      .increment_violation_counter author_id "spam"])

/-- Whether `submit_content` schedules the background social-media publish
(src/main.py lines 214-221): exactly when the classification is
"acceptable". -/
def schedules_publish (classification : Classification) : Bool :=
  classification == .acceptable

/-- The response body assembled by `submit_content` (src/main.py lines
233-248), restricted to the fields derived from the verdict and action. -/
structure SubmitResponse where
  classification : Classification
  confidence : ℚ
  toxicity_score : ℚ
  spam_score : ℚ
  sentiment : String
  action_taken : String
  notification_sent : Bool
  deriving DecidableEq, Repr

/-- The HTTPException raised by `submit_content` on any caught failure
(src/main.py lines 260-263): status 500 with the formatted detail. -/
def http_error (e : String) : Nat × String :=
  (500, "Failed to process content: " ++ e)

/-- `submit_content` after a verdict `cr` has been produced (src/main.py
lines 199-263).  The awaited collaborator calls — the side effects inside
`apply_business_logic` (queue insert / notification / violation counter),
`store_content` (content row + audit row), and
`log_classification_metrics` — are external and fallible; their outcomes are
the three `Except` inputs, in program order.  Any raised error is caught by
the except block at lines 254-263, logged, and re-raised as
HTTPException(500); only when all three succeed is the classification
response returned.  The background publish is scheduled (not awaited)
between storing and metrics, per `schedules_publish`. -/
def submit_content (content_id author_id : String) (cr : ClassifyResult)
    (effects_outcome store_outcome metrics_outcome : Except String Unit) :
    Except (Nat × String) SubmitResponse :=
  let ar := (apply_business_logic content_id author_id cr.classification
      cr.toxicity_score cr.confidence).1
  match effects_outcome with
  | .error e => .error (http_error e)
  | .ok _ =>
    match store_outcome with
    | .error e => .error (http_error e)
    | .ok _ =>
      match metrics_outcome with
      | .error e => .error (http_error e)
      | .ok _ =>
        .ok { classification := cr.classification
              confidence := cr.confidence
              toxicity_score := cr.toxicity_score
              spam_score := cr.spam_score
              sentiment := cr.sentiment
              action_taken := ar.action
              notification_sent := ar.notification_sent }

/-! ### Helper lemmas: default threshold lookups -/

lemma titem_default_toxicity_high : titem defaultThresholds "toxicity_high" = 8/10 := rfl

lemma titem_default_toxicity_medium : titem defaultThresholds "toxicity_medium" = 6/10 := rfl

lemma titem_default_spam_high : titem defaultThresholds "spam_high" = 7/10 := rfl

lemma titem_default_confidence_low : titem defaultThresholds "confidence_low" = 6/10 := rfl

/-! ### Claim theorems -/

/-- C1: for every toxicity_score ≥ 0.8 (scores in [0,1], any sentiment) the
engine returns toxic with confidence equal to the toxicity score, regardless
of spam score and sentiment; and rule order is a strict tie-break:
toxicity 0.85 with spam 0.9 yields toxic. -/
theorem high_toxicity_wins (toxicity_score spam_score : ℚ) (sr : SentimentResult)
    (ht : 8/10 ≤ toxicity_score) (ht1 : toxicity_score ≤ 1)
    (hs0 : 0 ≤ spam_score) (hs1 : spam_score ≤ 1) :
    determine_classification defaultThresholds toxicity_score spam_score sr
      = (Classification.toxic, toxicity_score)
    ∧ determine_classification defaultThresholds (85/100) (9/10) sr
      = (Classification.toxic, 85/100) := by
  constructor
  · simp only [determine_classification, titem_default_toxicity_high]
    rw [if_pos ht]
  · simp only [determine_classification, titem, tget, tfind?, defaultThresholds,
      String.reduceEq, reduceIte, Option.getD]
    norm_num

theorem high_toxicity_wins_witness :
    (8/10 : ℚ) ≤ 9/10 ∧ (9/10 : ℚ) ≤ 1 ∧ (0 : ℚ) ≤ 1/4 ∧ (1/4 : ℚ) ≤ 1
    ∧ (determine_classification defaultThresholds (9/10) (1/4) ⟨"neutral", 1/2⟩
        = (Classification.toxic, 9/10)
      ∧ determine_classification defaultThresholds (85/100) (9/10) ⟨"neutral", 1/2⟩
        = (Classification.toxic, 85/100)) :=
  ⟨by norm_num, by norm_num, by norm_num, by norm_num,
   high_toxicity_wins (9/10) (1/4) ⟨"neutral", 1/2⟩
     (by norm_num) (by norm_num) (by norm_num) (by norm_num)⟩

/-- C2 counterexample: classify(toxicity=0, spam=0, neutral) does not return
(acceptable, 1.0): the confidence formula yields 0.5 < confidence_low = 0.6,
so rule 5 fires. -/
theorem zero_scores_not_acceptable :
    determine_classification defaultThresholds 0 0 ⟨"neutral", 1/2⟩
      ≠ (Classification.acceptable, 1) := by
  have h : determine_classification defaultThresholds 0 0 ⟨"neutral", 1/2⟩
      = (Classification.needs_review, 1/2) := by
    simp only [determine_classification, titem, tget, tfind?, defaultThresholds,
      String.reduceEq, reduceIte, Option.getD]
    norm_num [abs_of_nonneg]
  rw [h]
  simp [Prod.ext_iff]

/-- C2 (amended): classify(toxicity=0, spam=0, neutral) returns needs_review
with confidence 0.5 — the confidence formula gives 1 - max(0.5, 0.5) = 0.5,
which is below confidence_low = 0.6, so rule 5 routes it to needs_review. -/
theorem zero_scores_needs_review :
    determine_classification defaultThresholds 0 0 ⟨"neutral", 1/2⟩
      = (Classification.needs_review, 1/2) := by
  simp only [determine_classification, titem, tget, tfind?, defaultThresholds,
    String.reduceEq, reduceIte, Option.getD]
  norm_num [abs_of_nonneg]

/-- C3: the action dispatch is exhaustive and total over the four
classifications — acceptable ↦ approved_and_stored (no notification, empty
effect list, background publish scheduled), needs_review ↦ queued_for_review
(moderation-queue entry), toxic ↦ rejected_toxic (notify author + toxic
violation counter), spam ↦ rejected_spam (notify author + spam violation
counter) — and the publish is scheduled exactly when the classification is
acceptable. -/
theorem action_dispatch_table (content_id author_id : String) (t c : ℚ) :
    apply_business_logic content_id author_id .acceptable t c
      = ({ action := "approved_and_stored", notification_sent := false }, []) ∧
    apply_business_logic content_id author_id .needs_review t c
      = ({ action := "queued_for_review", notification_sent := false },
         [.add_to_moderation_queue content_id author_id "needs_human_review"
            (calculate_priority t c)]) ∧
    apply_business_logic content_id author_id .toxic t c
      = ({ action := "rejected_toxic", notification_sent := true },
         [.notify_user author_id "toxic"
            "Your content was flagged as toxic and has been rejected.",
          .increment_violation_counter author_id "toxic"]) ∧
    apply_business_logic content_id author_id .spam t c
      = ({ action := "rejected_spam", notification_sent := true },
         [.notify_user author_id "spam"
            "Your content was identified as spam and has been rejected.",
          .increment_violation_counter author_id "spam"]) ∧
    (∀ cl : Classification, schedules_publish cl = true ↔ cl = .acceptable) := by
  refine ⟨rfl, rfl, rfl, rfl, fun cl => ?_⟩
  cases cl <;> simp [schedules_publish] <;> rfl

/-- C4: whenever the upstream scorer raises, `_classify_sync` returns the
fixed safe verdict — needs_review, confidence 0, all scores 0 — and the
request still completes successfully (the failure is never propagated as a
hard error to the caller). -/
theorem scorer_failure_safe_default (th : TMap) (mv content : String)
    (pm : Nat) (e : String) (cid aid : String) :
    classify_sync th mv content pm (.error e)
      = { classification := .needs_review, confidence := 0, toxicity_score := 0,
          spam_score := 0, sentiment := "neutral", sentiment_score := 1/2,
          threshold := 0, model_version := mv, content_length := none,
          word_count := none, error := some e }
    ∧ submit_content cid aid (classify_sync th mv content pm (.error e))
        (.ok ()) (.ok ()) (.ok ())
      = .ok { classification := .needs_review, confidence := 0,
              toxicity_score := 0, spam_score := 0, sentiment := "neutral",
              action_taken := "queued_for_review", notification_sent := false } :=
  ⟨rfl, rfl⟩

/-- C8: the priority calculator is a pure total function of
(toxicity, confidence); its result always lies in [1..5] and priority 1 is
never produced (every value is in [2..5]); toxicity 0.9 gives 5 for any
confidence; (0.4, 0.65) gives 4; (0.35, 0.9) gives 3; (0.1, 0.9) gives 2. -/
theorem priority_range_and_values :
    (∀ toxicity confidence : ℚ,
      1 ≤ calculate_priority toxicity confidence
      ∧ 2 ≤ calculate_priority toxicity confidence
      ∧ calculate_priority toxicity confidence ≤ 5)
    ∧ (∀ confidence : ℚ, calculate_priority (9/10) confidence = 5)
    ∧ calculate_priority (4/10) (65/100) = 4
    ∧ calculate_priority (35/100) (9/10) = 3
    ∧ calculate_priority (1/10) (9/10) = 2 := by
  refine ⟨fun t c => ?_, fun c => ?_, ?_, ?_, ?_⟩
  · unfold calculate_priority
    split_ifs <;> norm_num
  · unfold calculate_priority
    rw [if_pos (Or.inl (by norm_num))]
  · norm_num [calculate_priority]
  · norm_num [calculate_priority]
  · norm_num [calculate_priority]

/-- C5 counterexample: with an already-produced acceptable verdict, a failing
content-store write is caught by `submit_content`'s except block and re-raised
as HTTPException(500): the classification result is NOT returned to the
caller, refuting the claim that side-effect failure never aborts the
request. -/
theorem store_failure_aborts_request :
    submit_content "c1" "u1"
      { classification := .acceptable, confidence := 95/100, toxicity_score := 1/10,
        spam_score := 0, sentiment := "positive", sentiment_score := 9/10,
        threshold := 1/2, model_version := "1.0.0", content_length := some 5,
        word_count := some 1, error := none }
      (.ok ()) (.error "db connection lost") (.ok ())
      = .error (500, "Failed to process content: db connection lost") := rfl

/-- C5 (amended): once a verdict has been produced, a failure of any awaited
side effect — the queue insert / notification / violation-counter calls
inside `apply_business_logic`, the content+audit persistence in
`store_content`, or the metrics logging — is caught at src/main.py lines
254-263 and re-raised as an HTTP 500 error, so the classification result is
NOT returned to the caller; the result is returned exactly when every awaited
side effect succeeds. -/
theorem side_effect_failure_yields_500 (cid aid : String) (cr : ClassifyResult)
    (e : String) (so mo : Except String Unit) :
    submit_content cid aid cr (.error e) so mo = .error (http_error e)
    ∧ submit_content cid aid cr (.ok ()) (.error e) mo = .error (http_error e)
    ∧ submit_content cid aid cr (.ok ()) (.ok ()) (.error e) = .error (http_error e)
    ∧ submit_content cid aid cr (.ok ()) (.ok ()) (.ok ())
      = .ok { classification := cr.classification, confidence := cr.confidence,
              toxicity_score := cr.toxicity_score, spam_score := cr.spam_score,
              sentiment := cr.sentiment,
              action_taken := (apply_business_logic cid aid cr.classification
                  cr.toxicity_score cr.confidence).1.action,
              notification_sent := (apply_business_logic cid aid cr.classification
                  cr.toxicity_score cr.confidence).1.notification_sent } :=
  ⟨rfl, rfl, rfl, rfl⟩

/-- Prepending a binding for a different key leaves a lookup unchanged. -/
lemma titem_cons_ne (k' : String) (q : ℚ) (th : TMap) (k : String) (h : k' ≠ k) :
    titem ((k', q) :: th) k = titem th k := by
  simp [titem, tget, tfind?, h]

/-- C6 counterexample: after a runtime update setting spam_medium to 0.9, a
spam score of 0.55 — strictly below the configured spam_medium — is still
routed to needs_review (with toxicity 0.5, which fires no toxicity rule), so
rule 4 does not compare against the configured spam_medium value. -/
theorem spam_medium_update_ineffective :
    tget (update_thresholds defaultThresholds [("spam_medium", 9/10)]) "spam_medium" 0 = 9/10
    ∧ (55/100 : ℚ) < 9/10
    ∧ (determine_classification (update_thresholds defaultThresholds [("spam_medium", 9/10)])
        (1/2) (55/100) ⟨"neutral", 1/2⟩).1 = Classification.needs_review := by
  refine ⟨rfl, by norm_num, ?_⟩
  simp only [determine_classification, update_thresholds, titem, tget, tfind?,
    defaultThresholds, List.reverse, String.reduceEq, reduceIte, Option.getD]
  norm_num

/-- C6 (amended): only the four thresholds actually present in the
configuration (toxicity_high, toxicity_medium, spam_high, confidence_low)
feed the decision rules; rule 4 compares spam_score against the hardcoded
constant 0.5, so a runtime update of spam_medium never changes any verdict,
while — whenever rules 1-3 do not fire — every spam score ≥ 0.5 is routed to
needs_review with confidence max(spam_score, 0.6). -/
theorem spam_medium_hardcoded :
    (∀ (th : TMap) (q toxicity_score spam_score : ℚ) (sr : SentimentResult),
      determine_classification (update_thresholds th [("spam_medium", q)])
          toxicity_score spam_score sr
        = determine_classification th toxicity_score spam_score sr)
    ∧ (∀ (th : TMap) (toxicity_score spam_score : ℚ) (sr : SentimentResult),
        toxicity_score < titem th "toxicity_high" →
        spam_score < titem th "spam_high" →
        toxicity_score < titem th "toxicity_medium" →
        1/2 ≤ spam_score →
        determine_classification th toxicity_score spam_score sr
          = (Classification.needs_review, max spam_score (6/10))) := by
  constructor
  · intro th q t s sr
    show determine_classification (("spam_medium", q) :: th) t s sr = _
    simp only [determine_classification]
    rw [titem_cons_ne _ _ _ _ (by decide), titem_cons_ne _ _ _ _ (by decide),
        titem_cons_ne _ _ _ _ (by decide), titem_cons_ne _ _ _ _ (by decide)]
  · intro th t s sr h1 h2 h3 h4
    simp only [determine_classification]
    rw [if_neg (not_le.mpr h1), if_neg (not_le.mpr h2), if_neg (not_le.mpr h3), if_pos h4]

theorem spam_medium_hardcoded_witness :
    (determine_classification (update_thresholds defaultThresholds [("spam_medium", 9/10)])
        (1/2) (55/100) ⟨"neutral", 1/2⟩
      = determine_classification defaultThresholds (1/2) (55/100) ⟨"neutral", 1/2⟩)
    ∧ ((1/2 : ℚ) < titem defaultThresholds "toxicity_high"
       ∧ (55/100 : ℚ) < titem defaultThresholds "spam_high"
       ∧ (1/2 : ℚ) < titem defaultThresholds "toxicity_medium"
       ∧ (1/2 : ℚ) ≤ 55/100)
    ∧ determine_classification defaultThresholds (1/2) (55/100) ⟨"neutral", 1/2⟩
      = (Classification.needs_review, max (55/100) (6/10)) :=
  ⟨spam_medium_hardcoded.1 defaultThresholds (9/10) (1/2) (55/100) ⟨"neutral", 1/2⟩,
   ⟨by rw [titem_default_toxicity_high]; norm_num,
    by rw [titem_default_spam_high]; norm_num,
    by rw [titem_default_toxicity_medium]; norm_num,
    by norm_num⟩,
   spam_medium_hardcoded.2 defaultThresholds (1/2) (55/100) ⟨"neutral", 1/2⟩
     (by rw [titem_default_toxicity_high]; norm_num)
     (by rw [titem_default_spam_high]; norm_num)
     (by rw [titem_default_toxicity_medium]; norm_num)
     (by norm_num)⟩

lemma pattern_score_nonneg (m : Nat) : 0 ≤ pattern_score m := by
  unfold pattern_score
  split_ifs
  · exact le_min (by positivity) (by norm_num)
  · exact le_refl 0

lemma pattern_score_le_half (m : Nat) : pattern_score m ≤ 1/2 := by
  unfold pattern_score
  split_ifs
  · exact min_le_right _ _
  · norm_num

lemma pattern_score_mono {m m' : Nat} (h : m ≤ m') :
    pattern_score m ≤ pattern_score m' := by
  unfold pattern_score
  split_ifs with h1 h2
  · exact min_le_min (by gcongr <;> exact_mod_cast h) le_rfl
  · exact absurd (Nat.lt_of_lt_of_le h1 h) h2
  · exact le_min (by positivity) (by norm_num)
  · exact le_refl 0

/-- C7: the spam heuristic scorer is monotonic in the number of
spam-pattern matches (for every text, more matches never decrease the
score), its result always lies in [0,1], and the pattern contribution is
capped at 0.5; the scorer is a total function with no error path. -/
theorem detect_spam_monotone_bounded :
    (∀ (content : String) (m m' : Nat), m ≤ m' →
      detect_spam m content ≤ detect_spam m' content)
    ∧ (∀ (m : Nat) (content : String),
        0 ≤ detect_spam m content ∧ detect_spam m content ≤ 1)
    ∧ (∀ m : Nat, 0 ≤ pattern_score m ∧ pattern_score m ≤ 1/2) := by
  refine ⟨fun content m m' h => ?_, fun m content => ⟨?_, ?_⟩,
    fun m => ⟨pattern_score_nonneg m, pattern_score_le_half m⟩⟩
  · simp only [detect_spam]
    split_ifs <;> gcongr <;> exact pattern_score_mono h
  · simp only [detect_spam]
    refine le_min ?_ (by norm_num)
    have := pattern_score_nonneg m
    split_ifs <;> linarith
  · simp only [detect_spam]
    exact min_le_right _ _

theorem detect_spam_monotone_bounded_witness :
    (0 : Nat) ≤ 3
    ∧ detect_spam 0 "hello world" ≤ detect_spam 3 "hello world"
    ∧ (0 ≤ detect_spam 2 "hello world" ∧ detect_spam 2 "hello world" ≤ 1)
    ∧ (0 ≤ pattern_score 2 ∧ pattern_score 2 ≤ 1/2) :=
  ⟨by norm_num,
   detect_spam_monotone_bounded.1 "hello world" 0 3 (by norm_num),
   detect_spam_monotone_bounded.2.1 2 "hello world",
   detect_spam_monotone_bounded.2.2 2⟩

/-- C9 counterexample: when rule 1 (toxicity_high) wins, the reported
threshold is 0.5, not the configured toxicity_high = 0.8: the result dict
looks up key "toxic_high" — which does not exist in the thresholds dict —
and falls back to the 0.5 default. -/
theorem threshold_used_toxic_mismatch :
    (classify_sync defaultThresholds "1.0.0" "x" 0
        (.ok (⟨"toxic", 9/10⟩, ⟨"neutral", 99/100⟩))).classification
      = Classification.toxic
    ∧ (classify_sync defaultThresholds "1.0.0" "x" 0
        (.ok (⟨"toxic", 9/10⟩, ⟨"neutral", 99/100⟩))).threshold = 1/2
    ∧ (1/2 : ℚ) ≠ titem defaultThresholds "toxicity_high" := by
  have hd : determine_classification defaultThresholds (9/10) (detect_spam 0 "x")
      ⟨"neutral", 99/100⟩ = (Classification.toxic, 9/10) := by
    simp only [determine_classification, titem_default_toxicity_high]
    rw [if_pos (by norm_num)]
  refine ⟨?_, ?_, ?_⟩
  · simp only [classify_sync, hd]
  · simp only [classify_sync, hd]
    rfl
  · rw [titem_default_toxicity_high]
    norm_num

/-- C9 (amended): the reported threshold is
`thresholds.get(classification + "_high", 0.5)`: under the default
configuration it equals the configured spam_high = 0.7 when the winning
classification is spam (key "spam_high" exists), and the fallback 0.5 for
every other classification (keys "toxic_high", "needs_review_high" and
"acceptable_high" do not exist) — in particular it is not the winning rule's
configured threshold for the toxicity or needs_review rules. -/
theorem threshold_used_lookup (mv content : String) (pm : Nat)
    (tr : ToxicityResult) (sr : SentimentResult) :
    ((classify_sync defaultThresholds mv content pm (.ok (tr, sr))).classification
        = Classification.spam →
      (classify_sync defaultThresholds mv content pm (.ok (tr, sr))).threshold
        = titem defaultThresholds "spam_high")
    ∧ ((classify_sync defaultThresholds mv content pm (.ok (tr, sr))).classification
        ≠ Classification.spam →
      (classify_sync defaultThresholds mv content pm (.ok (tr, sr))).threshold = 1/2) := by
  simp only [classify_sync]
  generalize determine_classification defaultThresholds tr.score (detect_spam pm content) sr = cc
  obtain ⟨cls, conf⟩ := cc
  cases cls <;>
    exact ⟨fun h => by first | rfl | simp at h, fun h => by first | rfl | exact absurd rfl h⟩

theorem threshold_used_lookup_witness :
    (classify_sync defaultThresholds "1.0.0" "y" 0
        (.ok (⟨"toxic", 85/100⟩, ⟨"neutral", 99/100⟩))).classification
      ≠ Classification.spam
    ∧ (classify_sync defaultThresholds "1.0.0" "y" 0
        (.ok (⟨"toxic", 85/100⟩, ⟨"neutral", 99/100⟩))).threshold = 1/2 := by
  have hd : determine_classification defaultThresholds (85/100) (detect_spam 0 "y")
      ⟨"neutral", 99/100⟩ = (Classification.toxic, 85/100) := by
    simp only [determine_classification, titem_default_toxicity_high]
    rw [if_pos (by norm_num)]
  have hne : (classify_sync defaultThresholds "1.0.0" "y" 0
      (.ok (⟨"toxic", 85/100⟩, ⟨"neutral", 99/100⟩))).classification
      ≠ Classification.spam := by
    simp only [classify_sync, hd]
    simp
  exact ⟨hne,
    (threshold_used_lookup "1.0.0" "y" 0 ⟨"toxic", 85/100⟩ ⟨"neutral", 99/100⟩).2 hne⟩

/-- Each ambiguity penalty in the confidence formula lies in [0, 1/2] when
the underlying score lies in [0,1]. -/
lemma ambiguity_bounds (s : ℚ) (h0 : 0 ≤ s) (h1 : s ≤ 1) :
    0 ≤ (if s < 6/10 then |s - 1/2| else 0)
    ∧ (if s < 6/10 then |s - 1/2| else 0) ≤ 1/2 := by
  split_ifs with h
  · refine ⟨abs_nonneg _, ?_⟩
    rw [abs_le]
    constructor <;> linarith
  · norm_num

/-- C10: for all scores in [0,1] and any sentiment, the confidence returned
by the verdict engine lies in [0,1]; acceptable is only ever returned with
confidence ≥ confidence_low = 0.6; and a needs_review verdict produced by the
medium-threshold rules 3 and 4 always carries confidence ≥ 0.6. -/
theorem verdict_confidence_invariants (t s : ℚ) (sr : SentimentResult)
    (h0t : 0 ≤ t) (h1t : t ≤ 1) (h0s : 0 ≤ s) (h1s : s ≤ 1) :
    (0 ≤ (determine_classification defaultThresholds t s sr).2
      ∧ (determine_classification defaultThresholds t s sr).2 ≤ 1)
    ∧ ((determine_classification defaultThresholds t s sr).1 = Classification.acceptable →
        6/10 ≤ (determine_classification defaultThresholds t s sr).2)
    ∧ (t < 8/10 → s < 7/10 → (6/10 ≤ t ∨ 1/2 ≤ s) →
        (determine_classification defaultThresholds t s sr).1 = Classification.needs_review
        ∧ 6/10 ≤ (determine_classification defaultThresholds t s sr).2) := by
  have hb1 := ambiguity_bounds t h0t h1t
  have hb2 := ambiguity_bounds s h0s h1s
  simp only [determine_classification, titem_default_toxicity_high,
    titem_default_toxicity_medium, titem_default_spam_high, titem_default_confidence_low]
  set d1 := (if t < 6/10 then |t - 1/2| else 0) with hd1
  set d2 := (if s < 6/10 then |s - 1/2| else 0) with hd2
  have hmax_ub : max d1 d2 ≤ 1/2 := max_le hb1.2 hb2.2
  have hmax_lb : 0 ≤ max d1 d2 := le_trans hb1.1 (le_max_left _ _)
  split_ifs with hr1 hr2 hr3 hr4 hr5 <;>
    refine ⟨⟨?_, ?_⟩, fun hacc => ?_, fun hc1 hc2 hor => ?_⟩
  · exact h0t
  · exact h1t
  · exact absurd hacc (by simp)
  · exact absurd hr1 (not_le.mpr hc1)
  · exact h0s
  · exact h1s
  · exact absurd hacc (by simp)
  · exact absurd hr2 (not_le.mpr hc2)
  · exact le_trans h0t (le_max_left _ _)
  · exact max_le h1t (by norm_num)
  · exact absurd hacc (by simp)
  · exact ⟨rfl, le_max_right _ _⟩
  · exact le_trans h0s (le_max_left _ _)
  · exact max_le h1s (by norm_num)
  · exact absurd hacc (by simp)
  · exact ⟨rfl, le_max_right _ _⟩
  · show (0:ℚ) ≤ 1 - max d1 d2
    linarith
  · show (1:ℚ) - max d1 d2 ≤ 1
    linarith
  · exact absurd hacc (by simp)
  · rcases hor with h | h
    · exact absurd h hr3
    · exact absurd h hr4
  · show (0:ℚ) ≤ 1 - max d1 d2
    linarith
  · show (1:ℚ) - max d1 d2 ≤ 1
    linarith
  · linarith [not_lt.mp hr5]
  · rcases hor with h | h
    · exact absurd h hr3
    · exact absurd h hr4

theorem verdict_confidence_invariants_witness :
    ((0 : ℚ) ≤ 13/20 ∧ (13/20 : ℚ) ≤ 1 ∧ (0 : ℚ) ≤ 11/20 ∧ (11/20 : ℚ) ≤ 1)
    ∧ ((0 ≤ (determine_classification defaultThresholds (13/20) (11/20)
          ⟨"neutral", 1/2⟩).2
        ∧ (determine_classification defaultThresholds (13/20) (11/20)
          ⟨"neutral", 1/2⟩).2 ≤ 1)
      ∧ ((determine_classification defaultThresholds (13/20) (11/20)
            ⟨"neutral", 1/2⟩).1 = Classification.acceptable →
          6/10 ≤ (determine_classification defaultThresholds (13/20) (11/20)
            ⟨"neutral", 1/2⟩).2)
      ∧ ((13/20 : ℚ) < 8/10 → (11/20 : ℚ) < 7/10 →
          ((6/10 : ℚ) ≤ 13/20 ∨ (1/2 : ℚ) ≤ 11/20) →
          (determine_classification defaultThresholds (13/20) (11/20)
            ⟨"neutral", 1/2⟩).1 = Classification.needs_review
          ∧ 6/10 ≤ (determine_classification defaultThresholds (13/20) (11/20)
            ⟨"neutral", 1/2⟩).2)) :=
  ⟨⟨by norm_num, by norm_num, by norm_num, by norm_num⟩,
   verdict_confidence_invariants (13/20) (11/20) ⟨"neutral", 1/2⟩
     (by norm_num) (by norm_num) (by norm_num) (by norm_num)⟩

end ContentModeration
